import Mathlib

/-!
Verification of the IPv4 packed-header view (`src/packets/src/ipv4.rs`).

The buffer is a `List Nat` whose entries are bytes (`< 256`).  The Rust view
types `Ipv4Packet<'a>(&'a [u8])` and `MutIpv4Packet<'a>(&'a mut [u8])` are
transparent wrappers around the slice, so the shallow embedding works with the
buffer itself: getters are functions `List Nat → value` and setters are
functions `List Nat → value → List Nat`.  Machine arithmetic (`u8`, `u16`)
is modelled with `Nat` and explicit `% 256` / `% 65536` where the Rust types
wrap.
-/

set_option maxRecDepth 4000

namespace Rips

/-- A well-formed byte buffer: every entry fits in a `u8`. -/
def Bytes (b : List Nat) : Prop := ∀ x ∈ b, x < 256

instance (b : List Nat) : Decidable (Bytes b) :=
  inferInstanceAs (Decidable (∀ x ∈ b, x < 256))

/-- Modelled from the spec: the byte-level read primitive
`read_offset!(buf, o, u8)` of the `types` crate (not under `src/`):
read the byte at offset `o`. -/
def read_u8 (b : List Nat) (o : Nat) : Nat := (b[o]?).getD 0

/-- Modelled from the spec: `read_offset!(buf, o, u16, from_be)`:
read the big-endian 16-bit word stored at offsets `o`, `o+1`. -/
def read_u16_be (b : List Nat) (o : Nat) : Nat :=
  256 * read_u8 b o + read_u8 b (o + 1)

/-- Modelled from the spec: `write_offset!(buf, o, v, u8)`: store the `u8`
value `v` at offset `o`. -/
def write_u8 (b : List Nat) (o v : Nat) : List Nat := b.set o (v % 256)

/-- Modelled from the spec: `write_offset!(buf, o, v, u16, to_be)`: store the
`u16` value `v` big-endian at offsets `o`, `o+1`. -/
def write_u16_be (b : List Nat) (o v : Nat) : List Nat :=
  write_u8 (write_u8 b o (v / 256)) (o + 1) v

/-- `std::net::Ipv4Addr`, restricted to what the code uses: four octets. -/
structure Ipv4Addr where
  o1 : Nat
  o2 : Nat
  o3 : Nat
  o4 : Nat
deriving DecidableEq

/-- `Ipv4Addr::octets`. -/
def Ipv4Addr.octets (a : Ipv4Addr) : List Nat := [a.o1, a.o2, a.o3, a.o4]

/-- The external `ip::Protocol` newtype: a single wrapped byte. -/
structure Protocol where
  value : Nat
deriving DecidableEq

/-- Modelled from the spec: the `bitflags!`-generated 3-bit `Flags` type.
`bits` is the raw `u3` storage; values built by the public constructors
always satisfy `bits < 8`. -/
structure Flags where
  bits : Nat
deriving DecidableEq

/-- A bitmask with a one in the "Reserved" position. -/
def Flags.RESERVED : Flags := ⟨0b100⟩

/-- A bitmask with a one in the "Don't fragment" position. -/
def Flags.DF : Flags := ⟨0b010⟩

/-- A bitmask with a one in the "More fragments" position. -/
def Flags.MF : Flags := ⟨0b001⟩

/-- Modelled from the spec: `Flags::from_bits_truncate` silently discards all
bits beyond the three defined ones (whose union is `0b111`). -/
def Flags.from_bits_truncate (r : Nat) : Flags := ⟨r &&& 0b111⟩

/-- Modelled from the spec: `Flags::contains`: every named bit of `f` is set. -/
def Flags.contains (s f : Flags) : Bool := s.bits &&& f.bits == f.bits

/-- Modelled from the spec: union of two flag sets (`|` on `Flags`). -/
def Flags.union (s f : Flags) : Flags := ⟨s.bits ||| f.bits⟩

/-- Modelled from the spec: intersection of two flag sets (`&` on `Flags`). -/
def Flags.inter (s f : Flags) : Flags := ⟨s.bits &&& f.bits⟩

/-- Modelled from the spec: `Flags::all()`, the union of the three bits. -/
def Flags.all : Flags := ⟨0b111⟩

/-- Modelled from the spec: `Flags::empty()`, no bit set. -/
def Flags.empty : Flags := ⟨0⟩

namespace Ipv4Packet

/-- `packet!(Ipv4Packet, MutIpv4Packet, 20)`: the minimum buffer length. -/
def MIN_LEN : Nat := 20

/-- Modelled from the spec: the `packet!` macro's `Ipv4Packet::new`: no view
when the buffer is shorter than `MIN_LEN`, otherwise the view over the
buffer. -/
def new (buffer : List Nat) : Option (List Nat) :=
  if buffer.length < MIN_LEN then none else some buffer

/-- Modelled from the spec: `data()`: the whole underlying buffer. -/
def data (b : List Nat) : List Nat := b

/-- Modelled from the spec: `header()`: the first `MIN_LEN` bytes. -/
def header (b : List Nat) : List Nat := b.take MIN_LEN

/-- Modelled from the spec: `payload()`: everything past the header. -/
def payload (b : List Nat) : List Nat := b.drop MIN_LEN

def version (b : List Nat) : Nat := read_u8 b 0 >>> 4

def header_length (b : List Nat) : Nat := read_u8 b 0 &&& 0x0f

def dscp (b : List Nat) : Nat := read_u8 b 1 >>> 2

def ecn (b : List Nat) : Nat := read_u8 b 1 &&& 0x03

def total_length (b : List Nat) : Nat := read_u16_be b 2

def identification (b : List Nat) : Nat := read_u16_be b 4

def flags (b : List Nat) : Flags := Flags.from_bits_truncate (read_u8 b 6 >>> 5)

def dont_fragment (b : List Nat) : Bool := (flags b).contains Flags.DF

def more_fragments (b : List Nat) : Bool := (flags b).contains Flags.MF

def fragment_offset (b : List Nat) : Nat := read_u16_be b 6 &&& 0x1fff

def ttl (b : List Nat) : Nat := read_u8 b 8

def protocol (b : List Nat) : Protocol := ⟨read_u8 b 9⟩

def header_checksum (b : List Nat) : Nat := read_u16_be b 10

def source (b : List Nat) : Ipv4Addr :=
  ⟨read_u8 b 12, read_u8 b 13, read_u8 b 14, read_u8 b 15⟩

def destination (b : List Nat) : Ipv4Addr :=
  ⟨read_u8 b 16, read_u8 b 17, read_u8 b 18, read_u8 b 19⟩

end Ipv4Packet

namespace MutIpv4Packet

/-- Modelled from the spec: the `packet!` macro's `MutIpv4Packet::new`. -/
def new (buffer : List Nat) : Option (List Nat) :=
  if buffer.length < Ipv4Packet.MIN_LEN then none else some buffer

def set_version (b : List Nat) (version : Nat) : List Nat :=
  write_u8 b 0 ((version <<< 4) % 256 ||| (read_u8 b 0 &&& 0x0f))

def set_header_length (b : List Nat) (header_length : Nat) : List Nat :=
  write_u8 b 0 ((read_u8 b 0 &&& 0xf0) ||| (header_length &&& 0x0f))

def set_dscp (b : List Nat) (dscp : Nat) : List Nat :=
  write_u8 b 1 ((dscp <<< 2) % 256 ||| (read_u8 b 1 &&& 0x03))

def set_ecn (b : List Nat) (ecn : Nat) : List Nat :=
  write_u8 b 1 ((read_u8 b 1 &&& 0xfc) ||| (ecn &&& 0x03))

def set_total_length (b : List Nat) (total_length : Nat) : List Nat :=
  write_u16_be b 2 total_length

def set_identification (b : List Nat) (identification : Nat) : List Nat :=
  write_u16_be b 4 identification

def set_flags (b : List Nat) (flags : Flags) : List Nat :=
  write_u8 b 6 ((flags.bits <<< 5) % 256 ||| (read_u8 b 6 &&& 0x1f))

def set_fragment_offset (b : List Nat) (fragment_offset : Nat) : List Nat :=
  write_u16_be b 6 ((read_u16_be b 6 &&& 0xe000) ||| (fragment_offset &&& 0x1fff))

def set_ttl (b : List Nat) (ttl : Nat) : List Nat := write_u8 b 8 ttl

def set_protocol (b : List Nat) (protocol : Protocol) : List Nat :=
  write_u8 b 9 protocol.value

def set_header_checksum (b : List Nat) (checksum : Nat) : List Nat :=
  write_u16_be b 10 checksum

def set_source (b : List Nat) (source : Ipv4Addr) : List Nat :=
  write_u8 (write_u8 (write_u8 (write_u8 b 12 source.o1) 13 source.o2) 14 source.o3) 15 source.o4

def set_destination (b : List Nat) (destination : Ipv4Addr) : List Nat :=
  write_u8 (write_u8 (write_u8 (write_u8 b 16 destination.o1) 17 destination.o2) 18 destination.o3)
    19 destination.o4

end MutIpv4Packet

/-! ### Byte-level helper lemmas -/

theorem read_u8_lt {b : List Nat} (hb : Bytes b) (o : Nat) : read_u8 b o < 256 := by
  unfold read_u8
  cases h : b[o]? with
  | none => simp
  | some x => simpa using hb x (List.getElem?_mem h)

theorem read_write_eq {b : List Nat} {o : Nat} (h : o < b.length) (v : Nat) :
    read_u8 (write_u8 b o v) o = v % 256 := by
  unfold read_u8 write_u8
  rw [List.getElem?_set_eq_of_lt _ h]
  rfl

theorem read_write_ne {b : List Nat} {o j : Nat} (h : j ≠ o) (v : Nat) :
    read_u8 (write_u8 b o v) j = read_u8 b j := by
  unfold read_u8 write_u8
  rw [List.getElem?_set_ne (fun he => h he.symm)]

@[simp] theorem length_write (b : List Nat) (o v : Nat) :
    (write_u8 b o v).length = b.length := by
  simp [write_u8]

theorem Bytes_write {b : List Nat} (hb : Bytes b) (o v : Nat) : Bytes (write_u8 b o v) := by
  intro x hx
  rcases List.mem_or_eq_of_mem_set hx with h | h
  · exact hb x h
  · subst h
    exact Nat.mod_lt _ (by norm_num)

theorem payload_write (b : List Nat) (o v : Nat) (h : o < 20) :
    Ipv4Packet.payload (write_u8 b o v) = Ipv4Packet.payload b := by
  unfold Ipv4Packet.payload write_u8 Ipv4Packet.MIN_LEN
  rw [List.drop_set]
  simp [h]

theorem payload_write16 (b : List Nat) (o v : Nat) (h : o + 1 < 20) :
    Ipv4Packet.payload (write_u16_be b o v) = Ipv4Packet.payload b := by
  unfold write_u16_be
  rw [payload_write _ (o + 1) _ h, payload_write _ o _ (by omega)]

/-! ### Arithmetic helper lemmas for the bit manipulations -/

theorem land_3 (x : Nat) : x &&& 3 = x % 4 := by
  have h := Nat.and_pow_two_sub_one_eq_mod x 2
  norm_num at h
  exact h

theorem land_7 (x : Nat) : x &&& 7 = x % 8 := by
  have h := Nat.and_pow_two_sub_one_eq_mod x 3
  norm_num at h
  exact h

theorem land_15 (x : Nat) : x &&& 15 = x % 16 := by
  have h := Nat.and_pow_two_sub_one_eq_mod x 4
  norm_num at h
  exact h

theorem land_31 (x : Nat) : x &&& 31 = x % 32 := by
  have h := Nat.and_pow_two_sub_one_eq_mod x 5
  norm_num at h
  exact h

theorem land_8191 (x : Nat) : x &&& 8191 = x % 8192 := by
  have h := Nat.and_pow_two_sub_one_eq_mod x 13
  norm_num at h
  exact h

theorem shr2 (x : Nat) : x >>> 2 = x / 4 := by
  have h := Nat.shiftRight_eq_div_pow x 2
  norm_num at h
  exact h

theorem shr4 (x : Nat) : x >>> 4 = x / 16 := by
  have h := Nat.shiftRight_eq_div_pow x 4
  norm_num at h
  exact h

theorem shr5 (x : Nat) : x >>> 5 = x / 32 := by
  have h := Nat.shiftRight_eq_div_pow x 5
  norm_num at h
  exact h

theorem shr13 (x : Nat) : x >>> 13 = x / 8192 := by
  have h := Nat.shiftRight_eq_div_pow x 13
  norm_num at h
  exact h

theorem shl2 (x : Nat) : x <<< 2 = 4 * x := by
  have h := Nat.shiftLeft_eq x 2
  norm_num at h
  omega

theorem shl4 (x : Nat) : x <<< 4 = 16 * x := by
  have h := Nat.shiftLeft_eq x 4
  norm_num at h
  omega

theorem shl5 (x : Nat) : x <<< 5 = 32 * x := by
  have h := Nat.shiftLeft_eq x 5
  norm_num at h
  omega

theorem lor_shiftRight (a c n : Nat) : (a ||| c) >>> n = a >>> n ||| c >>> n := by
  apply Nat.eq_of_testBit_eq
  intro i
  simp

theorem land_shiftRight (a c n : Nat) : (a &&& c) >>> n = a >>> n &&& c >>> n := by
  apply Nat.eq_of_testBit_eq
  intro i
  simp

/-- The two nibbles of byte 0 combine and separate cleanly. -/
theorem nib_or : ∀ a < 16, ∀ y < 16,
    (16 * a ||| y) >>> 4 = a ∧ (16 * a ||| y) &&& 15 = y ∧ 16 * a ||| y < 256 := by decide

/-- The 6/2 split of byte 1 combines and separates cleanly. -/
theorem dscp_or : ∀ a < 64, ∀ y < 4,
    (4 * a ||| y) >>> 2 = a ∧ (4 * a ||| y) &&& 3 = y ∧ 4 * a ||| y < 256 := by decide

/-- The 3/5 split of byte 6 combines and separates cleanly. -/
theorem flags_or : ∀ g < 8, ∀ y < 32,
    (32 * g ||| y) >>> 5 = g ∧ (32 * g ||| y) % 32 = y ∧ 32 * g ||| y < 256 := by decide

/-- Masking the high nibble / high six bits of a byte. -/
theorem byte_masks : ∀ x < 256, x &&& 240 = 16 * (x / 16) ∧ x &&& 252 = 4 * (x / 4) := by decide

/-- The `DF`/`MF` containment tests read exactly bits 6 and 5 of byte 6. -/
theorem byte_flag_bits : ∀ x < 256,
    ((((x >>> 5) &&& 7) &&& 2) == 2) = x.testBit 6 ∧
    ((((x >>> 5) &&& 7) &&& 1) == 1) = x.testBit 5 := by decide

/-- Closed form of the word stored by `set_fragment_offset`. -/
theorem word_nf (X v : Nat) :
    (X &&& 57344) ||| (v &&& 8191) = 8192 * ((X >>> 13) &&& 7) + v % 8192 := by
  have c1 : 57344 &&& 8191 = 0 := by decide
  have c2 : 57344 >>> 13 = 7 := by decide
  have c3 : 8191 &&& 8191 = 8191 := by decide
  have c4 : 8191 >>> 13 = 0 := by decide
  have hmod : ((X &&& 57344) ||| (v &&& 8191)) &&& 8191 = v &&& 8191 := by
    rw [Nat.and_distrib_right, Nat.and_assoc, c1, Nat.and_assoc, c3]
    simp
  have hm : ((X &&& 57344) ||| (v &&& 8191)) % 8192 = v % 8192 := by
    rw [← land_8191, ← land_8191]
    exact hmod
  have hdiv : ((X &&& 57344) ||| (v &&& 8191)) >>> 13 = (X >>> 13) &&& 7 := by
    rw [lor_shiftRight, land_shiftRight, land_shiftRight, c2, c4]
    simp
  have hd : ((X &&& 57344) ||| (v &&& 8191)) / 8192 = (X >>> 13) &&& 7 := by
    rw [← shr13]
    exact hdiv
  have hsplit := Nat.div_add_mod ((X &&& 57344) ||| (v &&& 8191)) 8192
  omega

/-! ### Byte maps of the setters: what every offset reads after a write -/

theorem read_write (b : List Nat) (o v j : Nat) (h : o < b.length) :
    read_u8 (write_u8 b o v) j = if j = o then v % 256 else read_u8 b j := by
  by_cases hj : j = o
  · subst hj
    rw [if_pos rfl]
    exact read_write_eq h v
  · rw [if_neg hj]
    exact read_write_ne hj v

theorem write16_read (b : List Nat) (o : Nat) (h : o + 1 < b.length) (v j : Nat) :
    read_u8 (write_u16_be b o v) j =
      if j = o then v / 256 % 256 else if j = o + 1 then v % 256 else read_u8 b j := by
  unfold write_u16_be
  rw [read_write _ (o + 1) v j (by simp only [length_write]; exact h)]
  rw [read_write b o (v / 256) j (by omega)]
  split_ifs <;> first | rfl | omega

theorem set_version_read (b : List Nat) (hl : 20 ≤ b.length) (v j : Nat) :
    read_u8 (MutIpv4Packet.set_version b v) j =
      if j = 0 then 16 * (v % 16) ||| read_u8 b 0 % 16 else read_u8 b j := by
  unfold MutIpv4Packet.set_version
  rw [read_write b 0 _ j (by omega)]
  by_cases hj : j = 0
  · rw [if_pos hj, if_pos hj, shl4, land_15]
    have h16 : 16 * v % 256 = 16 * (v % 16) := by omega
    rw [h16]
    exact Nat.mod_eq_of_lt (nib_or (v % 16) (by omega) (read_u8 b 0 % 16) (by omega)).2.2
  · rw [if_neg hj, if_neg hj]

theorem set_header_length_read (b : List Nat) (hb : Bytes b) (hl : 20 ≤ b.length) (v j : Nat) :
    read_u8 (MutIpv4Packet.set_header_length b v) j =
      if j = 0 then 16 * (read_u8 b 0 / 16) ||| v % 16 else read_u8 b j := by
  unfold MutIpv4Packet.set_header_length
  rw [read_write b 0 _ j (by omega)]
  by_cases hj : j = 0
  · rw [if_pos hj, if_pos hj, land_15, (byte_masks (read_u8 b 0) (read_u8_lt hb 0)).1]
    exact Nat.mod_eq_of_lt
      (nib_or (read_u8 b 0 / 16) (by have := read_u8_lt hb 0; omega) (v % 16) (by omega)).2.2
  · rw [if_neg hj, if_neg hj]

theorem set_dscp_read (b : List Nat) (hl : 20 ≤ b.length) (v j : Nat) :
    read_u8 (MutIpv4Packet.set_dscp b v) j =
      if j = 1 then 4 * (v % 64) ||| read_u8 b 1 % 4 else read_u8 b j := by
  unfold MutIpv4Packet.set_dscp
  rw [read_write b 1 _ j (by omega)]
  by_cases hj : j = 1
  · rw [if_pos hj, if_pos hj, shl2, land_3]
    have h4 : 4 * v % 256 = 4 * (v % 64) := by omega
    rw [h4]
    exact Nat.mod_eq_of_lt (dscp_or (v % 64) (by omega) (read_u8 b 1 % 4) (by omega)).2.2
  · rw [if_neg hj, if_neg hj]

theorem set_ecn_read (b : List Nat) (hb : Bytes b) (hl : 20 ≤ b.length) (v j : Nat) :
    read_u8 (MutIpv4Packet.set_ecn b v) j =
      if j = 1 then 4 * (read_u8 b 1 / 4) ||| v % 4 else read_u8 b j := by
  unfold MutIpv4Packet.set_ecn
  rw [read_write b 1 _ j (by omega)]
  by_cases hj : j = 1
  · rw [if_pos hj, if_pos hj, land_3, (byte_masks (read_u8 b 1) (read_u8_lt hb 1)).2]
    exact Nat.mod_eq_of_lt
      (dscp_or (read_u8 b 1 / 4) (by have := read_u8_lt hb 1; omega) (v % 4) (by omega)).2.2
  · rw [if_neg hj, if_neg hj]

theorem set_flags_read (b : List Nat) (hl : 20 ≤ b.length) (f : Flags) (j : Nat) :
    read_u8 (MutIpv4Packet.set_flags b f) j =
      if j = 6 then 32 * (f.bits % 8) ||| read_u8 b 6 % 32 else read_u8 b j := by
  unfold MutIpv4Packet.set_flags
  rw [read_write b 6 _ j (by omega)]
  by_cases hj : j = 6
  · rw [if_pos hj, if_pos hj, shl5, land_31]
    have h32 : 32 * f.bits % 256 = 32 * (f.bits % 8) := by omega
    rw [h32]
    exact Nat.mod_eq_of_lt (flags_or (f.bits % 8) (by omega) (read_u8 b 6 % 32) (by omega)).2.2
  · rw [if_neg hj, if_neg hj]

theorem set_ttl_read (b : List Nat) (hl : 20 ≤ b.length) (v j : Nat) :
    read_u8 (MutIpv4Packet.set_ttl b v) j = if j = 8 then v % 256 else read_u8 b j := by
  unfold MutIpv4Packet.set_ttl
  exact read_write b 8 v j (by omega)

theorem set_protocol_read (b : List Nat) (hl : 20 ≤ b.length) (p : Protocol) (j : Nat) :
    read_u8 (MutIpv4Packet.set_protocol b p) j =
      if j = 9 then p.value % 256 else read_u8 b j := by
  unfold MutIpv4Packet.set_protocol
  exact read_write b 9 p.value j (by omega)

theorem set_total_length_read (b : List Nat) (hl : 20 ≤ b.length) (v j : Nat) :
    read_u8 (MutIpv4Packet.set_total_length b v) j =
      if j = 2 then v / 256 % 256 else if j = 3 then v % 256 else read_u8 b j := by
  unfold MutIpv4Packet.set_total_length
  rw [write16_read b 2 (by omega) v j]

theorem set_identification_read (b : List Nat) (hl : 20 ≤ b.length) (v j : Nat) :
    read_u8 (MutIpv4Packet.set_identification b v) j =
      if j = 4 then v / 256 % 256 else if j = 5 then v % 256 else read_u8 b j := by
  unfold MutIpv4Packet.set_identification
  rw [write16_read b 4 (by omega) v j]

theorem set_header_checksum_read (b : List Nat) (hl : 20 ≤ b.length) (v j : Nat) :
    read_u8 (MutIpv4Packet.set_header_checksum b v) j =
      if j = 10 then v / 256 % 256 else if j = 11 then v % 256 else read_u8 b j := by
  unfold MutIpv4Packet.set_header_checksum
  rw [write16_read b 10 (by omega) v j]

theorem set_frag_read (b : List Nat) (hb : Bytes b) (hl : 20 ≤ b.length) (v j : Nat) :
    read_u8 (MutIpv4Packet.set_fragment_offset b v) j =
      if j = 6 then 32 * (read_u8 b 6 / 32) + v % 8192 / 256
      else if j = 7 then v % 256 else read_u8 b j := by
  unfold MutIpv4Packet.set_fragment_offset
  rw [write16_read b 6 (by omega) _ j]
  have h6 := read_u8_lt hb 6
  have h7 := read_u8_lt hb 7
  have hw := word_nf (read_u16_be b 6) v
  have hx : read_u16_be b 6 >>> 13 &&& 7 = read_u8 b 6 / 32 := by
    rw [shr13, land_7]
    unfold read_u16_be
    have h7' : read_u8 b (6 + 1) < 256 := h7
    omega
  rw [hx] at hw
  rw [hw]
  split_ifs <;> first | rfl | omega

theorem set_source_read (b : List Nat) (hl : 20 ≤ b.length) (a : Ipv4Addr) (j : Nat) :
    read_u8 (MutIpv4Packet.set_source b a) j =
      if j = 12 then a.o1 % 256 else if j = 13 then a.o2 % 256
      else if j = 14 then a.o3 % 256 else if j = 15 then a.o4 % 256 else read_u8 b j := by
  unfold MutIpv4Packet.set_source
  rw [read_write _ 15 a.o4 j (by simp only [length_write]; omega)]
  rw [read_write _ 14 a.o3 j (by simp only [length_write]; omega)]
  rw [read_write _ 13 a.o2 j (by simp only [length_write]; omega)]
  rw [read_write b 12 a.o1 j (by omega)]
  split_ifs <;> first | rfl | omega

theorem set_destination_read (b : List Nat) (hl : 20 ≤ b.length) (a : Ipv4Addr) (j : Nat) :
    read_u8 (MutIpv4Packet.set_destination b a) j =
      if j = 16 then a.o1 % 256 else if j = 17 then a.o2 % 256
      else if j = 18 then a.o3 % 256 else if j = 19 then a.o4 % 256 else read_u8 b j := by
  unfold MutIpv4Packet.set_destination
  rw [read_write _ 19 a.o4 j (by simp only [length_write]; omega)]
  rw [read_write _ 18 a.o3 j (by simp only [length_write]; omega)]
  rw [read_write _ 17 a.o2 j (by simp only [length_write]; omega)]
  rw [read_write b 16 a.o1 j (by omega)]
  split_ifs <;> first | rfl | omega

/-! ### Getter normal forms on byte buffers -/

/-- On a byte buffer, `fragment_offset` is the low 5 bits of byte 6 followed by
byte 7. -/
theorem frag_nf {b : List Nat} (_h6 : read_u8 b 6 < 256) (h7 : read_u8 b 7 < 256) :
    Ipv4Packet.fragment_offset b = 256 * (read_u8 b 6 % 32) + read_u8 b 7 := by
  unfold Ipv4Packet.fragment_offset read_u16_be
  rw [land_8191]
  have h7' : read_u8 b (6 + 1) = read_u8 b 7 := rfl
  rw [h7']
  omega

/-- `flags` is the top three bits of byte 6. -/
theorem flags_nf (b : List Nat) : Ipv4Packet.flags b = ⟨read_u8 b 6 / 32 % 8⟩ := by
  unfold Ipv4Packet.flags Flags.from_bits_truncate
  rw [shr5, land_7]

/-! ### Claims -/

/-- **C3**: `Ipv4Packet::new` and `MutIpv4Packet::new` yield no view exactly
when the buffer is shorter than 20 bytes, and yield the view over the buffer
whenever it is at least 20 bytes long. -/
theorem claim_C3_new_length_guard (b : List Nat) :
    (Ipv4Packet.new b = none ↔ b.length < 20) ∧
    (MutIpv4Packet.new b = none ↔ b.length < 20) ∧
    (20 ≤ b.length → Ipv4Packet.new b = some b) ∧
    (20 ≤ b.length → MutIpv4Packet.new b = some b) := by
  refine ⟨?_, ?_, ?_, ?_⟩
  · by_cases h : b.length < 20 <;> simp [Ipv4Packet.new, Ipv4Packet.MIN_LEN, h]
  · by_cases h : b.length < 20 <;> simp [MutIpv4Packet.new, Ipv4Packet.MIN_LEN, h]
  · intro h
    simp [Ipv4Packet.new, Ipv4Packet.MIN_LEN, Nat.not_lt.mpr h]
  · intro h
    simp [MutIpv4Packet.new, Ipv4Packet.MIN_LEN, Nat.not_lt.mpr h]

theorem claim_C3_witness :
    (Ipv4Packet.new (List.replicate 19 0) = none ↔ (List.replicate 19 0).length < 20) ∧
    (MutIpv4Packet.new (List.replicate 19 0) = none ↔ (List.replicate 19 0).length < 20) ∧
    20 ≤ (List.replicate 20 1).length ∧
    Ipv4Packet.new (List.replicate 20 1) = some (List.replicate 20 1) ∧
    MutIpv4Packet.new (List.replicate 20 1) = some (List.replicate 20 1) :=
  ⟨(claim_C3_new_length_guard (List.replicate 19 0)).1,
   (claim_C3_new_length_guard (List.replicate 19 0)).2.1,
   by decide,
   (claim_C3_new_length_guard (List.replicate 20 1)).2.2.1 (by decide),
   (claim_C3_new_length_guard (List.replicate 20 1)).2.2.2 (by decide)⟩

/-- **C5**: for a buffer of length at least 20, construction succeeds, `data`
is the whole buffer, `header` is exactly the first 20 bytes (length 20), and
`payload` is exactly the bytes from offset 20 on (length `len - 20`). -/
theorem claim_C5_segments (b : List Nat) (hl : 20 ≤ b.length) :
    Ipv4Packet.new b = some b ∧
    Ipv4Packet.data b = b ∧
    Ipv4Packet.header b = b.take 20 ∧
    (Ipv4Packet.header b).length = 20 ∧
    Ipv4Packet.payload b = b.drop 20 ∧
    (Ipv4Packet.payload b).length = b.length - 20 := by
  refine ⟨?_, rfl, rfl, ?_, rfl, ?_⟩
  · simp [Ipv4Packet.new, Ipv4Packet.MIN_LEN, Nat.not_lt.mpr hl]
  · simp only [Ipv4Packet.header, Ipv4Packet.MIN_LEN, List.length_take]
    omega
  · simp [Ipv4Packet.payload, Ipv4Packet.MIN_LEN]

theorem claim_C5_witness :
    20 ≤ (List.replicate 19 2 ++ [3, 4]).length ∧
    Ipv4Packet.new (List.replicate 19 2 ++ [3, 4]) = some (List.replicate 19 2 ++ [3, 4]) ∧
    Ipv4Packet.header (List.replicate 19 2 ++ [3, 4]) = (List.replicate 19 2 ++ [3, 4]).take 20 ∧
    (Ipv4Packet.header (List.replicate 19 2 ++ [3, 4])).length = 20 ∧
    (Ipv4Packet.payload (List.replicate 19 2 ++ [3, 4])).length
      = (List.replicate 19 2 ++ [3, 4]).length - 20 :=
  ⟨by decide,
   (claim_C5_segments (List.replicate 19 2 ++ [3, 4]) (by decide)).1,
   (claim_C5_segments (List.replicate 19 2 ++ [3, 4]) (by decide)).2.2.1,
   (claim_C5_segments (List.replicate 19 2 ++ [3, 4]) (by decide)).2.2.2.1,
   (claim_C5_segments (List.replicate 19 2 ++ [3, 4]) (by decide)).2.2.2.2.2⟩

/-- **C6**: on the view over a 20-byte buffer whose every byte is
`0b1010_1010`, the getters return the concrete values of the spec scenario. -/
theorem claim_C6_alternating_bits :
    Ipv4Packet.new (List.replicate 20 0b10101010) = some (List.replicate 20 0b10101010) ∧
    Ipv4Packet.version (List.replicate 20 0b10101010) = 10 ∧
    Ipv4Packet.header_length (List.replicate 20 0b10101010) = 10 ∧
    Ipv4Packet.dscp (List.replicate 20 0b10101010) = 42 ∧
    Ipv4Packet.ecn (List.replicate 20 0b10101010) = 2 ∧
    Ipv4Packet.total_length (List.replicate 20 0b10101010) = 0xAAAA ∧
    Ipv4Packet.identification (List.replicate 20 0b10101010) = 0xAAAA ∧
    Ipv4Packet.flags (List.replicate 20 0b10101010) = Flags.RESERVED.union Flags.MF ∧
    Ipv4Packet.dont_fragment (List.replicate 20 0b10101010) = false ∧
    Ipv4Packet.more_fragments (List.replicate 20 0b10101010) = true ∧
    Ipv4Packet.fragment_offset (List.replicate 20 0b10101010) = 0x0AAA := by
  decide

/-- **C1**: for every field, every byte buffer of length at least 20, and
every value within the field's declared bit width, setting the field and then
reading it back returns exactly the value written. -/
theorem claim_C1_set_get_roundtrip (b : List Nat) (hb : Bytes b) (hl : 20 ≤ b.length) :
    (∀ v < 16, Ipv4Packet.version (MutIpv4Packet.set_version b v) = v) ∧
    (∀ v < 16, Ipv4Packet.header_length (MutIpv4Packet.set_header_length b v) = v) ∧
    (∀ v < 64, Ipv4Packet.dscp (MutIpv4Packet.set_dscp b v) = v) ∧
    (∀ v < 4, Ipv4Packet.ecn (MutIpv4Packet.set_ecn b v) = v) ∧
    (∀ v < 65536, Ipv4Packet.total_length (MutIpv4Packet.set_total_length b v) = v) ∧
    (∀ v < 65536, Ipv4Packet.identification (MutIpv4Packet.set_identification b v) = v) ∧
    (∀ f : Flags, f.bits < 8 → Ipv4Packet.flags (MutIpv4Packet.set_flags b f) = f) ∧
    (∀ v < 8192, Ipv4Packet.fragment_offset (MutIpv4Packet.set_fragment_offset b v) = v) ∧
    (∀ v < 256, Ipv4Packet.ttl (MutIpv4Packet.set_ttl b v) = v) ∧
    (∀ p : Protocol, p.value < 256 → Ipv4Packet.protocol (MutIpv4Packet.set_protocol b p) = p) ∧
    (∀ v < 65536, Ipv4Packet.header_checksum (MutIpv4Packet.set_header_checksum b v) = v) ∧
    (∀ a : Ipv4Addr, a.o1 < 256 → a.o2 < 256 → a.o3 < 256 → a.o4 < 256 →
      Ipv4Packet.source (MutIpv4Packet.set_source b a) = a) ∧
    (∀ a : Ipv4Addr, a.o1 < 256 → a.o2 < 256 → a.o3 < 256 → a.o4 < 256 →
      Ipv4Packet.destination (MutIpv4Packet.set_destination b a) = a) := by
  refine ⟨?_, ?_, ?_, ?_, ?_, ?_, ?_, ?_, ?_, ?_, ?_, ?_, ?_⟩
  · intro v hv
    unfold Ipv4Packet.version
    rw [set_version_read b hl v 0, if_pos rfl]
    have h := (nib_or (v % 16) (by omega) (read_u8 b 0 % 16) (by omega)).1
    omega
  · intro v hv
    unfold Ipv4Packet.header_length
    rw [set_header_length_read b hb hl v 0, if_pos rfl]
    have hx := read_u8_lt hb 0
    have h := (nib_or (read_u8 b 0 / 16) (by omega) (v % 16) (by omega)).2.1
    omega
  · intro v hv
    unfold Ipv4Packet.dscp
    rw [set_dscp_read b hl v 1, if_pos rfl]
    have h := (dscp_or (v % 64) (by omega) (read_u8 b 1 % 4) (by omega)).1
    omega
  · intro v hv
    unfold Ipv4Packet.ecn
    rw [set_ecn_read b hb hl v 1, if_pos rfl]
    have hx := read_u8_lt hb 1
    have h := (dscp_or (read_u8 b 1 / 4) (by omega) (v % 4) (by omega)).2.1
    omega
  · intro v hv
    unfold Ipv4Packet.total_length read_u16_be
    have h2 := set_total_length_read b hl v 2
    have h3 := set_total_length_read b hl v 3
    norm_num at h2 h3
    rw [show (2 : Nat) + 1 = 3 from rfl, h2, h3]
    omega
  · intro v hv
    unfold Ipv4Packet.identification read_u16_be
    have h4 := set_identification_read b hl v 4
    have h5 := set_identification_read b hl v 5
    norm_num at h4 h5
    rw [show (4 : Nat) + 1 = 5 from rfl, h4, h5]
    omega
  · intro f hf
    rw [flags_nf]
    rw [set_flags_read b hl f 6, if_pos rfl]
    have h := (flags_or (f.bits % 8) (by omega) (read_u8 b 6 % 32) (by omega)).1
    rw [shr5] at h
    rcases f with ⟨fb⟩
    simp only [Flags.mk.injEq]
    simp only at h hf
    omega
  · intro v hv
    have h6 := read_u8_lt hb 6
    have hr6 := set_frag_read b hb hl v 6
    have hr7 := set_frag_read b hb hl v 7
    norm_num at hr6 hr7
    rw [frag_nf (by omega) (by omega), hr6, hr7]
    omega
  · intro v hv
    unfold Ipv4Packet.ttl
    rw [set_ttl_read b hl v 8, if_pos rfl]
    omega
  · intro p hp
    unfold Ipv4Packet.protocol
    have h := set_protocol_read b hl p 9
    norm_num at h
    rw [h, Nat.mod_eq_of_lt hp]
  · intro v hv
    unfold Ipv4Packet.header_checksum read_u16_be
    have ha := set_header_checksum_read b hl v 10
    have hc := set_header_checksum_read b hl v 11
    norm_num at ha hc
    rw [show (10 : Nat) + 1 = 11 from rfl, ha, hc]
    omega
  · intro a h1 h2 h3 h4
    unfold Ipv4Packet.source
    have k12 := set_source_read b hl a 12
    have k13 := set_source_read b hl a 13
    have k14 := set_source_read b hl a 14
    have k15 := set_source_read b hl a 15
    norm_num at k12 k13 k14 k15
    rw [k12, k13, k14, k15, Nat.mod_eq_of_lt h1, Nat.mod_eq_of_lt h2, Nat.mod_eq_of_lt h3,
      Nat.mod_eq_of_lt h4]
  · intro a h1 h2 h3 h4
    unfold Ipv4Packet.destination
    have k16 := set_destination_read b hl a 16
    have k17 := set_destination_read b hl a 17
    have k18 := set_destination_read b hl a 18
    have k19 := set_destination_read b hl a 19
    norm_num at k16 k17 k18 k19
    rw [k16, k17, k18, k19, Nat.mod_eq_of_lt h1, Nat.mod_eq_of_lt h2, Nat.mod_eq_of_lt h3,
      Nat.mod_eq_of_lt h4]

theorem claim_C1_witness :
    Bytes (List.replicate 20 170) ∧ 20 ≤ (List.replicate 20 170).length ∧
    Ipv4Packet.version (MutIpv4Packet.set_version (List.replicate 20 170) 7) = 7 ∧
    Ipv4Packet.fragment_offset
      (MutIpv4Packet.set_fragment_offset (List.replicate 20 170) 5000) = 5000 ∧
    Ipv4Packet.source
      (MutIpv4Packet.set_source (List.replicate 20 170) ⟨192, 168, 15, 1⟩) = ⟨192, 168, 15, 1⟩ :=
  ⟨by decide, by decide,
   (claim_C1_set_get_roundtrip (List.replicate 20 170) (by decide) (by decide)).1 7 (by decide),
   (claim_C1_set_get_roundtrip (List.replicate 20 170) (by decide)
     (by decide)).2.2.2.2.2.2.2.1 5000 (by decide),
   (claim_C1_set_get_roundtrip (List.replicate 20 170) (by decide)
     (by decide)).2.2.2.2.2.2.2.2.2.2.2.1 ⟨192, 168, 15, 1⟩ (by decide) (by decide) (by decide)
     (by decide)⟩

/-- **C4**: out-of-range values are silently truncated: for every field whose
declared bit width is narrower than its input type, `set_f v` stores
`v mod 2^width` and `get_f` then returns that truncated value. -/
theorem claim_C4_truncation (b : List Nat) (hb : Bytes b) (hl : 20 ≤ b.length) :
    (∀ v < 256, Ipv4Packet.version (MutIpv4Packet.set_version b v) = v % 16) ∧
    (∀ v < 256, Ipv4Packet.header_length (MutIpv4Packet.set_header_length b v) = v % 16) ∧
    (∀ v < 256, Ipv4Packet.dscp (MutIpv4Packet.set_dscp b v) = v % 64) ∧
    (∀ v < 256, Ipv4Packet.ecn (MutIpv4Packet.set_ecn b v) = v % 4) ∧
    (∀ v < 65536,
      Ipv4Packet.fragment_offset (MutIpv4Packet.set_fragment_offset b v) = v % 8192) := by
  refine ⟨?_, ?_, ?_, ?_, ?_⟩
  · intro v hv
    unfold Ipv4Packet.version
    rw [set_version_read b hl v 0, if_pos rfl]
    have h := (nib_or (v % 16) (by omega) (read_u8 b 0 % 16) (by omega)).1
    omega
  · intro v hv
    unfold Ipv4Packet.header_length
    rw [set_header_length_read b hb hl v 0, if_pos rfl]
    have hx := read_u8_lt hb 0
    have h := (nib_or (read_u8 b 0 / 16) (by omega) (v % 16) (by omega)).2.1
    omega
  · intro v hv
    unfold Ipv4Packet.dscp
    rw [set_dscp_read b hl v 1, if_pos rfl]
    have h := (dscp_or (v % 64) (by omega) (read_u8 b 1 % 4) (by omega)).1
    omega
  · intro v hv
    unfold Ipv4Packet.ecn
    rw [set_ecn_read b hb hl v 1, if_pos rfl]
    have hx := read_u8_lt hb 1
    have h := (dscp_or (read_u8 b 1 / 4) (by omega) (v % 4) (by omega)).2.1
    omega
  · intro v hv
    have h6 := read_u8_lt hb 6
    have hr6 := set_frag_read b hb hl v 6
    have hr7 := set_frag_read b hb hl v 7
    norm_num at hr6 hr7
    rw [frag_nf (by omega) (by omega), hr6, hr7]
    omega

theorem claim_C4_witness :
    Bytes (List.replicate 20 0) ∧ 20 ≤ (List.replicate 20 0).length ∧
    Ipv4Packet.version (MutIpv4Packet.set_version (List.replicate 20 0) 0x12) = 2 ∧
    Ipv4Packet.dscp (MutIpv4Packet.set_dscp (List.replicate 20 0) 0x7f) = 63 ∧
    Ipv4Packet.fragment_offset
      (MutIpv4Packet.set_fragment_offset (List.replicate 20 0) 0x1faf) = 0x1faf % 8192 :=
  ⟨by decide, by decide,
   (claim_C4_truncation (List.replicate 20 0) (by decide) (by decide)).1 0x12 (by decide),
   (claim_C4_truncation (List.replicate 20 0) (by decide) (by decide)).2.2.1 0x7f (by decide),
   (claim_C4_truncation (List.replicate 20 0) (by decide) (by decide)).2.2.2.2 0x1faf (by decide)⟩

/-- **C7**: `set_total_length 0xFFBF` writes exactly `[0xFF, 0xBF]` at offsets
2–3 and changes nothing else; `set_source 192.168.15.1` writes exactly
`[192, 168, 15, 1]` at offsets 12–15 and leaves bytes 0–11 and 16–19
unchanged, whatever the prior contents. -/
theorem claim_C7_concrete_writes (b : List Nat) (hl : 20 ≤ b.length) :
    (read_u8 (MutIpv4Packet.set_total_length b 0xffbf) 2 = 0xff ∧
     read_u8 (MutIpv4Packet.set_total_length b 0xffbf) 3 = 0xbf ∧
     ∀ j, j ≠ 2 → j ≠ 3 → read_u8 (MutIpv4Packet.set_total_length b 0xffbf) j = read_u8 b j) ∧
    (read_u8 (MutIpv4Packet.set_source b ⟨192, 168, 15, 1⟩) 12 = 192 ∧
     read_u8 (MutIpv4Packet.set_source b ⟨192, 168, 15, 1⟩) 13 = 168 ∧
     read_u8 (MutIpv4Packet.set_source b ⟨192, 168, 15, 1⟩) 14 = 15 ∧
     read_u8 (MutIpv4Packet.set_source b ⟨192, 168, 15, 1⟩) 15 = 1 ∧
     ∀ j, j < 12 ∨ (16 ≤ j ∧ j ≤ 19) →
       read_u8 (MutIpv4Packet.set_source b ⟨192, 168, 15, 1⟩) j = read_u8 b j) := by
  constructor
  · refine ⟨?_, ?_, ?_⟩
    · have h := set_total_length_read b hl 0xffbf 2
      norm_num at h
      exact h
    · have h := set_total_length_read b hl 0xffbf 3
      norm_num at h
      exact h
    · intro j hj2 hj3
      rw [set_total_length_read b hl 0xffbf j, if_neg hj2, if_neg (by omega)]
  · refine ⟨?_, ?_, ?_, ?_, ?_⟩
    · have h := set_source_read b hl ⟨192, 168, 15, 1⟩ 12
      norm_num at h
      exact h
    · have h := set_source_read b hl ⟨192, 168, 15, 1⟩ 13
      norm_num at h
      exact h
    · have h := set_source_read b hl ⟨192, 168, 15, 1⟩ 14
      norm_num at h
      exact h
    · have h := set_source_read b hl ⟨192, 168, 15, 1⟩ 15
      norm_num at h
      exact h
    · intro j hj
      rw [set_source_read b hl ⟨192, 168, 15, 1⟩ j, if_neg (by omega), if_neg (by omega),
        if_neg (by omega), if_neg (by omega)]

theorem claim_C7_witness :
    20 ≤ (List.replicate 20 7).length ∧
    read_u8 (MutIpv4Packet.set_total_length (List.replicate 20 7) 0xffbf) 2 = 0xff ∧
    read_u8 (MutIpv4Packet.set_source (List.replicate 20 7) ⟨192, 168, 15, 1⟩) 12 = 192 ∧
    read_u8 (MutIpv4Packet.set_source (List.replicate 20 7) ⟨192, 168, 15, 1⟩) 16
      = read_u8 (List.replicate 20 7) 16 :=
  ⟨by decide,
   (claim_C7_concrete_writes (List.replicate 20 7) (by decide)).1.1,
   (claim_C7_concrete_writes (List.replicate 20 7) (by decide)).2.1,
   (claim_C7_concrete_writes (List.replicate 20 7) (by decide)).2.2.2.2.2 16 (by decide)⟩

/-- **C8**: `Flags::from_bits_truncate` discards every bit above the low 3,
so the stored bits equal the raw value mod 8; and every `Flags` value (any
union of `RESERVED`, `DF`, `MF`) round-trips exactly through its raw 3-bit
storage. -/
theorem claim_C8_flags_truncate_roundtrip :
    (∀ r : Nat, (Flags.from_bits_truncate r).bits = r % 8) ∧
    (∀ f : Flags, f.bits < 8 → Flags.from_bits_truncate f.bits = f) ∧
    (∀ x y z : Bool,
      Flags.from_bits_truncate
        (((if x then Flags.RESERVED else Flags.empty).union
          ((if y then Flags.DF else Flags.empty).union
            (if z then Flags.MF else Flags.empty))).bits) =
      ((if x then Flags.RESERVED else Flags.empty).union
        ((if y then Flags.DF else Flags.empty).union
          (if z then Flags.MF else Flags.empty)))) := by
  refine ⟨?_, ?_, ?_⟩
  · intro r
    simp only [Flags.from_bits_truncate]
    exact land_7 r
  · intro f hf
    rcases f with ⟨fb⟩
    simp only at hf
    simp only [Flags.from_bits_truncate, Flags.mk.injEq]
    rw [land_7]
    omega
  · decide

theorem claim_C8_witness :
    Flags.RESERVED.bits < 8 ∧
    Flags.from_bits_truncate Flags.RESERVED.bits = Flags.RESERVED ∧
    (Flags.from_bits_truncate 0xab).bits = 0xab % 8 :=
  ⟨by decide,
   claim_C8_flags_truncate_roundtrip.2.1 Flags.RESERVED (by decide),
   claim_C8_flags_truncate_roundtrip.1 0xab⟩

/-- **C10**: `dont_fragment` is true exactly when bit 6 of byte 6 (the `DF`
position of the 3-bit flags field) is set, and `more_fragments` exactly when
bit 5 (the `MF` position) is set; both agree with `flags().contains`. -/
theorem claim_C10_df_mf (b : List Nat) (hb : Bytes b) :
    Ipv4Packet.dont_fragment b = (Ipv4Packet.flags b).contains Flags.DF ∧
    Ipv4Packet.more_fragments b = (Ipv4Packet.flags b).contains Flags.MF ∧
    (Ipv4Packet.dont_fragment b = true ↔ (read_u8 b 6).testBit 6 = true) ∧
    (Ipv4Packet.more_fragments b = true ↔ (read_u8 b 6).testBit 5 = true) := by
  refine ⟨rfl, rfl, ?_, ?_⟩
  · have h := (byte_flag_bits (read_u8 b 6) (read_u8_lt hb 6)).1
    simp only [Ipv4Packet.dont_fragment, Ipv4Packet.flags, Flags.from_bits_truncate,
      Flags.contains, Flags.DF]
    rw [h]
  · have h := (byte_flag_bits (read_u8 b 6) (read_u8_lt hb 6)).2
    simp only [Ipv4Packet.more_fragments, Ipv4Packet.flags, Flags.from_bits_truncate,
      Flags.contains, Flags.MF]
    rw [h]

theorem claim_C10_witness :
    Bytes (List.replicate 20 170) ∧
    (Ipv4Packet.dont_fragment (List.replicate 20 170) = true
      ↔ (read_u8 (List.replicate 20 170) 6).testBit 6 = true) ∧
    (Ipv4Packet.more_fragments (List.replicate 20 170) = true
      ↔ (read_u8 (List.replicate 20 170) 6).testBit 5 = true) :=
  ⟨by decide,
   (claim_C10_df_mf (List.replicate 20 170) (by decide)).2.2.1,
   (claim_C10_df_mf (List.replicate 20 170) (by decide)).2.2.2⟩

/-- **C9**: no setter changes the buffer length or any byte of the payload
(offset ≥ 20), so the construction invariant `len(data) ≥ 20` is preserved by
every operation. -/
theorem claim_C9_frame_outside_header (b : List Nat) (hl : 20 ≤ b.length) :
    (∀ v, (MutIpv4Packet.set_version b v).length = b.length ∧
      Ipv4Packet.payload (MutIpv4Packet.set_version b v) = Ipv4Packet.payload b ∧
      20 ≤ (MutIpv4Packet.set_version b v).length) ∧
    (∀ v, (MutIpv4Packet.set_header_length b v).length = b.length ∧
      Ipv4Packet.payload (MutIpv4Packet.set_header_length b v) = Ipv4Packet.payload b ∧
      20 ≤ (MutIpv4Packet.set_header_length b v).length) ∧
    (∀ v, (MutIpv4Packet.set_dscp b v).length = b.length ∧
      Ipv4Packet.payload (MutIpv4Packet.set_dscp b v) = Ipv4Packet.payload b ∧
      20 ≤ (MutIpv4Packet.set_dscp b v).length) ∧
    (∀ v, (MutIpv4Packet.set_ecn b v).length = b.length ∧
      Ipv4Packet.payload (MutIpv4Packet.set_ecn b v) = Ipv4Packet.payload b ∧
      20 ≤ (MutIpv4Packet.set_ecn b v).length) ∧
    (∀ v, (MutIpv4Packet.set_total_length b v).length = b.length ∧
      Ipv4Packet.payload (MutIpv4Packet.set_total_length b v) = Ipv4Packet.payload b ∧
      20 ≤ (MutIpv4Packet.set_total_length b v).length) ∧
    (∀ v, (MutIpv4Packet.set_identification b v).length = b.length ∧
      Ipv4Packet.payload (MutIpv4Packet.set_identification b v) = Ipv4Packet.payload b ∧
      20 ≤ (MutIpv4Packet.set_identification b v).length) ∧
    (∀ f : Flags, (MutIpv4Packet.set_flags b f).length = b.length ∧
      Ipv4Packet.payload (MutIpv4Packet.set_flags b f) = Ipv4Packet.payload b ∧
      20 ≤ (MutIpv4Packet.set_flags b f).length) ∧
    (∀ v, (MutIpv4Packet.set_fragment_offset b v).length = b.length ∧
      Ipv4Packet.payload (MutIpv4Packet.set_fragment_offset b v) = Ipv4Packet.payload b ∧
      20 ≤ (MutIpv4Packet.set_fragment_offset b v).length) ∧
    (∀ v, (MutIpv4Packet.set_ttl b v).length = b.length ∧
      Ipv4Packet.payload (MutIpv4Packet.set_ttl b v) = Ipv4Packet.payload b ∧
      20 ≤ (MutIpv4Packet.set_ttl b v).length) ∧
    (∀ p : Protocol, (MutIpv4Packet.set_protocol b p).length = b.length ∧
      Ipv4Packet.payload (MutIpv4Packet.set_protocol b p) = Ipv4Packet.payload b ∧
      20 ≤ (MutIpv4Packet.set_protocol b p).length) ∧
    (∀ v, (MutIpv4Packet.set_header_checksum b v).length = b.length ∧
      Ipv4Packet.payload (MutIpv4Packet.set_header_checksum b v) = Ipv4Packet.payload b ∧
      20 ≤ (MutIpv4Packet.set_header_checksum b v).length) ∧
    (∀ a : Ipv4Addr, (MutIpv4Packet.set_source b a).length = b.length ∧
      Ipv4Packet.payload (MutIpv4Packet.set_source b a) = Ipv4Packet.payload b ∧
      20 ≤ (MutIpv4Packet.set_source b a).length) ∧
    (∀ a : Ipv4Addr, (MutIpv4Packet.set_destination b a).length = b.length ∧
      Ipv4Packet.payload (MutIpv4Packet.set_destination b a) = Ipv4Packet.payload b ∧
      20 ≤ (MutIpv4Packet.set_destination b a).length) := by
  refine ⟨?_, ?_, ?_, ?_, ?_, ?_, ?_, ?_, ?_, ?_, ?_, ?_, ?_⟩
  · intro v
    unfold MutIpv4Packet.set_version
    exact ⟨by simp, payload_write _ 0 _ (by norm_num), by simp [hl]⟩
  · intro v
    unfold MutIpv4Packet.set_header_length
    exact ⟨by simp, payload_write _ 0 _ (by norm_num), by simp [hl]⟩
  · intro v
    unfold MutIpv4Packet.set_dscp
    exact ⟨by simp, payload_write _ 1 _ (by norm_num), by simp [hl]⟩
  · intro v
    unfold MutIpv4Packet.set_ecn
    exact ⟨by simp, payload_write _ 1 _ (by norm_num), by simp [hl]⟩
  · intro v
    unfold MutIpv4Packet.set_total_length
    exact ⟨by simp [write_u16_be], payload_write16 _ 2 _ (by norm_num),
      by simp [write_u16_be, hl]⟩
  · intro v
    unfold MutIpv4Packet.set_identification
    exact ⟨by simp [write_u16_be], payload_write16 _ 4 _ (by norm_num),
      by simp [write_u16_be, hl]⟩
  · intro f
    unfold MutIpv4Packet.set_flags
    exact ⟨by simp, payload_write _ 6 _ (by norm_num), by simp [hl]⟩
  · intro v
    unfold MutIpv4Packet.set_fragment_offset
    exact ⟨by simp [write_u16_be], payload_write16 _ 6 _ (by norm_num),
      by simp [write_u16_be, hl]⟩
  · intro v
    unfold MutIpv4Packet.set_ttl
    exact ⟨by simp, payload_write _ 8 _ (by norm_num), by simp [hl]⟩
  · intro p
    unfold MutIpv4Packet.set_protocol
    exact ⟨by simp, payload_write _ 9 _ (by norm_num), by simp [hl]⟩
  · intro v
    unfold MutIpv4Packet.set_header_checksum
    exact ⟨by simp [write_u16_be], payload_write16 _ 10 _ (by norm_num),
      by simp [write_u16_be, hl]⟩
  · intro a
    unfold MutIpv4Packet.set_source
    refine ⟨by simp, ?_, by simp [hl]⟩
    rw [payload_write _ 15 _ (by norm_num), payload_write _ 14 _ (by norm_num),
      payload_write _ 13 _ (by norm_num), payload_write _ 12 _ (by norm_num)]
  · intro a
    unfold MutIpv4Packet.set_destination
    refine ⟨by simp, ?_, by simp [hl]⟩
    rw [payload_write _ 19 _ (by norm_num), payload_write _ 18 _ (by norm_num),
      payload_write _ 17 _ (by norm_num), payload_write _ 16 _ (by norm_num)]

theorem claim_C9_witness :
    20 ≤ (List.replicate 19 2 ++ [3, 4]).length ∧
    (MutIpv4Packet.set_ttl (List.replicate 19 2 ++ [3, 4]) 255).length
      = (List.replicate 19 2 ++ [3, 4]).length ∧
    Ipv4Packet.payload (MutIpv4Packet.set_ttl (List.replicate 19 2 ++ [3, 4]) 255)
      = Ipv4Packet.payload (List.replicate 19 2 ++ [3, 4]) ∧
    Ipv4Packet.payload
      (MutIpv4Packet.set_fragment_offset (List.replicate 19 2 ++ [3, 4]) 0x1faf)
      = Ipv4Packet.payload (List.replicate 19 2 ++ [3, 4]) :=
  ⟨by decide,
   ((claim_C9_frame_outside_header (List.replicate 19 2 ++ [3, 4])
     (by decide)).2.2.2.2.2.2.2.2.1 255).1,
   ((claim_C9_frame_outside_header (List.replicate 19 2 ++ [3, 4])
     (by decide)).2.2.2.2.2.2.2.2.1 255).2.1,
   ((claim_C9_frame_outside_header (List.replicate 19 2 ++ [3, 4])
     (by decide)).2.2.2.2.2.2.2.1 0x1faf).2.1⟩

/-- **C2**: each setter preserves the value of every other field: writes are
read-modify-write inside a shared byte or 16-bit word, so in particular
`set_flags` does not alter the 13 stored bits of `fragment_offset` and
`set_fragment_offset` does not alter the 3 stored bits of `flags`, though
both live in bytes 6–7. -/
theorem claim_C2_setter_frame (b : List Nat) (hb : Bytes b) (hl : 20 ≤ b.length) :
    (∀ v < 256,
      Ipv4Packet.header_length (MutIpv4Packet.set_version b v) = Ipv4Packet.header_length b ∧
      Ipv4Packet.dscp (MutIpv4Packet.set_version b v) = Ipv4Packet.dscp b ∧
      Ipv4Packet.ecn (MutIpv4Packet.set_version b v) = Ipv4Packet.ecn b ∧
      Ipv4Packet.total_length (MutIpv4Packet.set_version b v) = Ipv4Packet.total_length b ∧
      Ipv4Packet.identification (MutIpv4Packet.set_version b v) = Ipv4Packet.identification b ∧
      Ipv4Packet.flags (MutIpv4Packet.set_version b v) = Ipv4Packet.flags b ∧
      Ipv4Packet.dont_fragment (MutIpv4Packet.set_version b v) = Ipv4Packet.dont_fragment b ∧
      Ipv4Packet.more_fragments (MutIpv4Packet.set_version b v) = Ipv4Packet.more_fragments b ∧
      Ipv4Packet.fragment_offset (MutIpv4Packet.set_version b v) = Ipv4Packet.fragment_offset b ∧
      Ipv4Packet.ttl (MutIpv4Packet.set_version b v) = Ipv4Packet.ttl b ∧
      Ipv4Packet.protocol (MutIpv4Packet.set_version b v) = Ipv4Packet.protocol b ∧
      Ipv4Packet.header_checksum (MutIpv4Packet.set_version b v) = Ipv4Packet.header_checksum b ∧
      Ipv4Packet.source (MutIpv4Packet.set_version b v) = Ipv4Packet.source b ∧
      Ipv4Packet.destination (MutIpv4Packet.set_version b v) = Ipv4Packet.destination b) ∧
    (∀ v < 256,
      Ipv4Packet.version (MutIpv4Packet.set_header_length b v) = Ipv4Packet.version b ∧
      Ipv4Packet.dscp (MutIpv4Packet.set_header_length b v) = Ipv4Packet.dscp b ∧
      Ipv4Packet.ecn (MutIpv4Packet.set_header_length b v) = Ipv4Packet.ecn b ∧
      Ipv4Packet.total_length (MutIpv4Packet.set_header_length b v) = Ipv4Packet.total_length b ∧
      Ipv4Packet.identification (MutIpv4Packet.set_header_length b v) = Ipv4Packet.identification b ∧
      Ipv4Packet.flags (MutIpv4Packet.set_header_length b v) = Ipv4Packet.flags b ∧
      Ipv4Packet.dont_fragment (MutIpv4Packet.set_header_length b v) = Ipv4Packet.dont_fragment b ∧
      Ipv4Packet.more_fragments (MutIpv4Packet.set_header_length b v) = Ipv4Packet.more_fragments b ∧
      Ipv4Packet.fragment_offset (MutIpv4Packet.set_header_length b v) = Ipv4Packet.fragment_offset b ∧
      Ipv4Packet.ttl (MutIpv4Packet.set_header_length b v) = Ipv4Packet.ttl b ∧
      Ipv4Packet.protocol (MutIpv4Packet.set_header_length b v) = Ipv4Packet.protocol b ∧
      Ipv4Packet.header_checksum (MutIpv4Packet.set_header_length b v) = Ipv4Packet.header_checksum b ∧
      Ipv4Packet.source (MutIpv4Packet.set_header_length b v) = Ipv4Packet.source b ∧
      Ipv4Packet.destination (MutIpv4Packet.set_header_length b v) = Ipv4Packet.destination b) ∧
    (∀ v < 256,
      Ipv4Packet.version (MutIpv4Packet.set_dscp b v) = Ipv4Packet.version b ∧
      Ipv4Packet.header_length (MutIpv4Packet.set_dscp b v) = Ipv4Packet.header_length b ∧
      Ipv4Packet.ecn (MutIpv4Packet.set_dscp b v) = Ipv4Packet.ecn b ∧
      Ipv4Packet.total_length (MutIpv4Packet.set_dscp b v) = Ipv4Packet.total_length b ∧
      Ipv4Packet.identification (MutIpv4Packet.set_dscp b v) = Ipv4Packet.identification b ∧
      Ipv4Packet.flags (MutIpv4Packet.set_dscp b v) = Ipv4Packet.flags b ∧
      Ipv4Packet.dont_fragment (MutIpv4Packet.set_dscp b v) = Ipv4Packet.dont_fragment b ∧
      Ipv4Packet.more_fragments (MutIpv4Packet.set_dscp b v) = Ipv4Packet.more_fragments b ∧
      Ipv4Packet.fragment_offset (MutIpv4Packet.set_dscp b v) = Ipv4Packet.fragment_offset b ∧
      Ipv4Packet.ttl (MutIpv4Packet.set_dscp b v) = Ipv4Packet.ttl b ∧
      Ipv4Packet.protocol (MutIpv4Packet.set_dscp b v) = Ipv4Packet.protocol b ∧
      Ipv4Packet.header_checksum (MutIpv4Packet.set_dscp b v) = Ipv4Packet.header_checksum b ∧
      Ipv4Packet.source (MutIpv4Packet.set_dscp b v) = Ipv4Packet.source b ∧
      Ipv4Packet.destination (MutIpv4Packet.set_dscp b v) = Ipv4Packet.destination b) ∧
    (∀ v < 256,
      Ipv4Packet.version (MutIpv4Packet.set_ecn b v) = Ipv4Packet.version b ∧
      Ipv4Packet.header_length (MutIpv4Packet.set_ecn b v) = Ipv4Packet.header_length b ∧
      Ipv4Packet.dscp (MutIpv4Packet.set_ecn b v) = Ipv4Packet.dscp b ∧
      Ipv4Packet.total_length (MutIpv4Packet.set_ecn b v) = Ipv4Packet.total_length b ∧
      Ipv4Packet.identification (MutIpv4Packet.set_ecn b v) = Ipv4Packet.identification b ∧
      Ipv4Packet.flags (MutIpv4Packet.set_ecn b v) = Ipv4Packet.flags b ∧
      Ipv4Packet.dont_fragment (MutIpv4Packet.set_ecn b v) = Ipv4Packet.dont_fragment b ∧
      Ipv4Packet.more_fragments (MutIpv4Packet.set_ecn b v) = Ipv4Packet.more_fragments b ∧
      Ipv4Packet.fragment_offset (MutIpv4Packet.set_ecn b v) = Ipv4Packet.fragment_offset b ∧
      Ipv4Packet.ttl (MutIpv4Packet.set_ecn b v) = Ipv4Packet.ttl b ∧
      Ipv4Packet.protocol (MutIpv4Packet.set_ecn b v) = Ipv4Packet.protocol b ∧
      Ipv4Packet.header_checksum (MutIpv4Packet.set_ecn b v) = Ipv4Packet.header_checksum b ∧
      Ipv4Packet.source (MutIpv4Packet.set_ecn b v) = Ipv4Packet.source b ∧
      Ipv4Packet.destination (MutIpv4Packet.set_ecn b v) = Ipv4Packet.destination b) ∧
    (∀ v < 65536,
      Ipv4Packet.version (MutIpv4Packet.set_total_length b v) = Ipv4Packet.version b ∧
      Ipv4Packet.header_length (MutIpv4Packet.set_total_length b v) = Ipv4Packet.header_length b ∧
      Ipv4Packet.dscp (MutIpv4Packet.set_total_length b v) = Ipv4Packet.dscp b ∧
      Ipv4Packet.ecn (MutIpv4Packet.set_total_length b v) = Ipv4Packet.ecn b ∧
      Ipv4Packet.identification (MutIpv4Packet.set_total_length b v) = Ipv4Packet.identification b ∧
      Ipv4Packet.flags (MutIpv4Packet.set_total_length b v) = Ipv4Packet.flags b ∧
      Ipv4Packet.dont_fragment (MutIpv4Packet.set_total_length b v) = Ipv4Packet.dont_fragment b ∧
      Ipv4Packet.more_fragments (MutIpv4Packet.set_total_length b v) = Ipv4Packet.more_fragments b ∧
      Ipv4Packet.fragment_offset (MutIpv4Packet.set_total_length b v) = Ipv4Packet.fragment_offset b ∧
      Ipv4Packet.ttl (MutIpv4Packet.set_total_length b v) = Ipv4Packet.ttl b ∧
      Ipv4Packet.protocol (MutIpv4Packet.set_total_length b v) = Ipv4Packet.protocol b ∧
      Ipv4Packet.header_checksum (MutIpv4Packet.set_total_length b v) = Ipv4Packet.header_checksum b ∧
      Ipv4Packet.source (MutIpv4Packet.set_total_length b v) = Ipv4Packet.source b ∧
      Ipv4Packet.destination (MutIpv4Packet.set_total_length b v) = Ipv4Packet.destination b) ∧
    (∀ v < 65536,
      Ipv4Packet.version (MutIpv4Packet.set_identification b v) = Ipv4Packet.version b ∧
      Ipv4Packet.header_length (MutIpv4Packet.set_identification b v) = Ipv4Packet.header_length b ∧
      Ipv4Packet.dscp (MutIpv4Packet.set_identification b v) = Ipv4Packet.dscp b ∧
      Ipv4Packet.ecn (MutIpv4Packet.set_identification b v) = Ipv4Packet.ecn b ∧
      Ipv4Packet.total_length (MutIpv4Packet.set_identification b v) = Ipv4Packet.total_length b ∧
      Ipv4Packet.flags (MutIpv4Packet.set_identification b v) = Ipv4Packet.flags b ∧
      Ipv4Packet.dont_fragment (MutIpv4Packet.set_identification b v) = Ipv4Packet.dont_fragment b ∧
      Ipv4Packet.more_fragments (MutIpv4Packet.set_identification b v) = Ipv4Packet.more_fragments b ∧
      Ipv4Packet.fragment_offset (MutIpv4Packet.set_identification b v) = Ipv4Packet.fragment_offset b ∧
      Ipv4Packet.ttl (MutIpv4Packet.set_identification b v) = Ipv4Packet.ttl b ∧
      Ipv4Packet.protocol (MutIpv4Packet.set_identification b v) = Ipv4Packet.protocol b ∧
      Ipv4Packet.header_checksum (MutIpv4Packet.set_identification b v) = Ipv4Packet.header_checksum b ∧
      Ipv4Packet.source (MutIpv4Packet.set_identification b v) = Ipv4Packet.source b ∧
      Ipv4Packet.destination (MutIpv4Packet.set_identification b v) = Ipv4Packet.destination b) ∧
    (∀ f : Flags, f.bits < 8 →
      Ipv4Packet.version (MutIpv4Packet.set_flags b f) = Ipv4Packet.version b ∧
      Ipv4Packet.header_length (MutIpv4Packet.set_flags b f) = Ipv4Packet.header_length b ∧
      Ipv4Packet.dscp (MutIpv4Packet.set_flags b f) = Ipv4Packet.dscp b ∧
      Ipv4Packet.ecn (MutIpv4Packet.set_flags b f) = Ipv4Packet.ecn b ∧
      Ipv4Packet.total_length (MutIpv4Packet.set_flags b f) = Ipv4Packet.total_length b ∧
      Ipv4Packet.identification (MutIpv4Packet.set_flags b f) = Ipv4Packet.identification b ∧
      Ipv4Packet.fragment_offset (MutIpv4Packet.set_flags b f) = Ipv4Packet.fragment_offset b ∧
      Ipv4Packet.ttl (MutIpv4Packet.set_flags b f) = Ipv4Packet.ttl b ∧
      Ipv4Packet.protocol (MutIpv4Packet.set_flags b f) = Ipv4Packet.protocol b ∧
      Ipv4Packet.header_checksum (MutIpv4Packet.set_flags b f) = Ipv4Packet.header_checksum b ∧
      Ipv4Packet.source (MutIpv4Packet.set_flags b f) = Ipv4Packet.source b ∧
      Ipv4Packet.destination (MutIpv4Packet.set_flags b f) = Ipv4Packet.destination b) ∧
    (∀ v < 65536,
      Ipv4Packet.version (MutIpv4Packet.set_fragment_offset b v) = Ipv4Packet.version b ∧
      Ipv4Packet.header_length (MutIpv4Packet.set_fragment_offset b v) = Ipv4Packet.header_length b ∧
      Ipv4Packet.dscp (MutIpv4Packet.set_fragment_offset b v) = Ipv4Packet.dscp b ∧
      Ipv4Packet.ecn (MutIpv4Packet.set_fragment_offset b v) = Ipv4Packet.ecn b ∧
      Ipv4Packet.total_length (MutIpv4Packet.set_fragment_offset b v) = Ipv4Packet.total_length b ∧
      Ipv4Packet.identification (MutIpv4Packet.set_fragment_offset b v) = Ipv4Packet.identification b ∧
      Ipv4Packet.flags (MutIpv4Packet.set_fragment_offset b v) = Ipv4Packet.flags b ∧
      Ipv4Packet.dont_fragment (MutIpv4Packet.set_fragment_offset b v) = Ipv4Packet.dont_fragment b ∧
      Ipv4Packet.more_fragments (MutIpv4Packet.set_fragment_offset b v) = Ipv4Packet.more_fragments b ∧
      Ipv4Packet.ttl (MutIpv4Packet.set_fragment_offset b v) = Ipv4Packet.ttl b ∧
      Ipv4Packet.protocol (MutIpv4Packet.set_fragment_offset b v) = Ipv4Packet.protocol b ∧
      Ipv4Packet.header_checksum (MutIpv4Packet.set_fragment_offset b v) = Ipv4Packet.header_checksum b ∧
      Ipv4Packet.source (MutIpv4Packet.set_fragment_offset b v) = Ipv4Packet.source b ∧
      Ipv4Packet.destination (MutIpv4Packet.set_fragment_offset b v) = Ipv4Packet.destination b) ∧
    (∀ v < 256,
      Ipv4Packet.version (MutIpv4Packet.set_ttl b v) = Ipv4Packet.version b ∧
      Ipv4Packet.header_length (MutIpv4Packet.set_ttl b v) = Ipv4Packet.header_length b ∧
      Ipv4Packet.dscp (MutIpv4Packet.set_ttl b v) = Ipv4Packet.dscp b ∧
      Ipv4Packet.ecn (MutIpv4Packet.set_ttl b v) = Ipv4Packet.ecn b ∧
      Ipv4Packet.total_length (MutIpv4Packet.set_ttl b v) = Ipv4Packet.total_length b ∧
      Ipv4Packet.identification (MutIpv4Packet.set_ttl b v) = Ipv4Packet.identification b ∧
      Ipv4Packet.flags (MutIpv4Packet.set_ttl b v) = Ipv4Packet.flags b ∧
      Ipv4Packet.dont_fragment (MutIpv4Packet.set_ttl b v) = Ipv4Packet.dont_fragment b ∧
      Ipv4Packet.more_fragments (MutIpv4Packet.set_ttl b v) = Ipv4Packet.more_fragments b ∧
      Ipv4Packet.fragment_offset (MutIpv4Packet.set_ttl b v) = Ipv4Packet.fragment_offset b ∧
      Ipv4Packet.protocol (MutIpv4Packet.set_ttl b v) = Ipv4Packet.protocol b ∧
      Ipv4Packet.header_checksum (MutIpv4Packet.set_ttl b v) = Ipv4Packet.header_checksum b ∧
      Ipv4Packet.source (MutIpv4Packet.set_ttl b v) = Ipv4Packet.source b ∧
      Ipv4Packet.destination (MutIpv4Packet.set_ttl b v) = Ipv4Packet.destination b) ∧
    (∀ p : Protocol, p.value < 256 →
      Ipv4Packet.version (MutIpv4Packet.set_protocol b p) = Ipv4Packet.version b ∧
      Ipv4Packet.header_length (MutIpv4Packet.set_protocol b p) = Ipv4Packet.header_length b ∧
      Ipv4Packet.dscp (MutIpv4Packet.set_protocol b p) = Ipv4Packet.dscp b ∧
      Ipv4Packet.ecn (MutIpv4Packet.set_protocol b p) = Ipv4Packet.ecn b ∧
      Ipv4Packet.total_length (MutIpv4Packet.set_protocol b p) = Ipv4Packet.total_length b ∧
      Ipv4Packet.identification (MutIpv4Packet.set_protocol b p) = Ipv4Packet.identification b ∧
      Ipv4Packet.flags (MutIpv4Packet.set_protocol b p) = Ipv4Packet.flags b ∧
      Ipv4Packet.dont_fragment (MutIpv4Packet.set_protocol b p) = Ipv4Packet.dont_fragment b ∧
      Ipv4Packet.more_fragments (MutIpv4Packet.set_protocol b p) = Ipv4Packet.more_fragments b ∧
      Ipv4Packet.fragment_offset (MutIpv4Packet.set_protocol b p) = Ipv4Packet.fragment_offset b ∧
      Ipv4Packet.ttl (MutIpv4Packet.set_protocol b p) = Ipv4Packet.ttl b ∧
      Ipv4Packet.header_checksum (MutIpv4Packet.set_protocol b p) = Ipv4Packet.header_checksum b ∧
      Ipv4Packet.source (MutIpv4Packet.set_protocol b p) = Ipv4Packet.source b ∧
      Ipv4Packet.destination (MutIpv4Packet.set_protocol b p) = Ipv4Packet.destination b) ∧
    (∀ v < 65536,
      Ipv4Packet.version (MutIpv4Packet.set_header_checksum b v) = Ipv4Packet.version b ∧
      Ipv4Packet.header_length (MutIpv4Packet.set_header_checksum b v) = Ipv4Packet.header_length b ∧
      Ipv4Packet.dscp (MutIpv4Packet.set_header_checksum b v) = Ipv4Packet.dscp b ∧
      Ipv4Packet.ecn (MutIpv4Packet.set_header_checksum b v) = Ipv4Packet.ecn b ∧
      Ipv4Packet.total_length (MutIpv4Packet.set_header_checksum b v) = Ipv4Packet.total_length b ∧
      Ipv4Packet.identification (MutIpv4Packet.set_header_checksum b v) = Ipv4Packet.identification b ∧
      Ipv4Packet.flags (MutIpv4Packet.set_header_checksum b v) = Ipv4Packet.flags b ∧
      Ipv4Packet.dont_fragment (MutIpv4Packet.set_header_checksum b v) = Ipv4Packet.dont_fragment b ∧
      Ipv4Packet.more_fragments (MutIpv4Packet.set_header_checksum b v) = Ipv4Packet.more_fragments b ∧
      Ipv4Packet.fragment_offset (MutIpv4Packet.set_header_checksum b v) = Ipv4Packet.fragment_offset b ∧
      Ipv4Packet.ttl (MutIpv4Packet.set_header_checksum b v) = Ipv4Packet.ttl b ∧
      Ipv4Packet.protocol (MutIpv4Packet.set_header_checksum b v) = Ipv4Packet.protocol b ∧
      Ipv4Packet.source (MutIpv4Packet.set_header_checksum b v) = Ipv4Packet.source b ∧
      Ipv4Packet.destination (MutIpv4Packet.set_header_checksum b v) = Ipv4Packet.destination b) ∧
    (∀ a : Ipv4Addr,
      Ipv4Packet.version (MutIpv4Packet.set_source b a) = Ipv4Packet.version b ∧
      Ipv4Packet.header_length (MutIpv4Packet.set_source b a) = Ipv4Packet.header_length b ∧
      Ipv4Packet.dscp (MutIpv4Packet.set_source b a) = Ipv4Packet.dscp b ∧
      Ipv4Packet.ecn (MutIpv4Packet.set_source b a) = Ipv4Packet.ecn b ∧
      Ipv4Packet.total_length (MutIpv4Packet.set_source b a) = Ipv4Packet.total_length b ∧
      Ipv4Packet.identification (MutIpv4Packet.set_source b a) = Ipv4Packet.identification b ∧
      Ipv4Packet.flags (MutIpv4Packet.set_source b a) = Ipv4Packet.flags b ∧
      Ipv4Packet.dont_fragment (MutIpv4Packet.set_source b a) = Ipv4Packet.dont_fragment b ∧
      Ipv4Packet.more_fragments (MutIpv4Packet.set_source b a) = Ipv4Packet.more_fragments b ∧
      Ipv4Packet.fragment_offset (MutIpv4Packet.set_source b a) = Ipv4Packet.fragment_offset b ∧
      Ipv4Packet.ttl (MutIpv4Packet.set_source b a) = Ipv4Packet.ttl b ∧
      Ipv4Packet.protocol (MutIpv4Packet.set_source b a) = Ipv4Packet.protocol b ∧
      Ipv4Packet.header_checksum (MutIpv4Packet.set_source b a) = Ipv4Packet.header_checksum b ∧
      Ipv4Packet.destination (MutIpv4Packet.set_source b a) = Ipv4Packet.destination b) ∧
    (∀ a : Ipv4Addr,
      Ipv4Packet.version (MutIpv4Packet.set_destination b a) = Ipv4Packet.version b ∧
      Ipv4Packet.header_length (MutIpv4Packet.set_destination b a) = Ipv4Packet.header_length b ∧
      Ipv4Packet.dscp (MutIpv4Packet.set_destination b a) = Ipv4Packet.dscp b ∧
      Ipv4Packet.ecn (MutIpv4Packet.set_destination b a) = Ipv4Packet.ecn b ∧
      Ipv4Packet.total_length (MutIpv4Packet.set_destination b a) = Ipv4Packet.total_length b ∧
      Ipv4Packet.identification (MutIpv4Packet.set_destination b a) = Ipv4Packet.identification b ∧
      Ipv4Packet.flags (MutIpv4Packet.set_destination b a) = Ipv4Packet.flags b ∧
      Ipv4Packet.dont_fragment (MutIpv4Packet.set_destination b a) = Ipv4Packet.dont_fragment b ∧
      Ipv4Packet.more_fragments (MutIpv4Packet.set_destination b a) = Ipv4Packet.more_fragments b ∧
      Ipv4Packet.fragment_offset (MutIpv4Packet.set_destination b a) = Ipv4Packet.fragment_offset b ∧
      Ipv4Packet.ttl (MutIpv4Packet.set_destination b a) = Ipv4Packet.ttl b ∧
      Ipv4Packet.protocol (MutIpv4Packet.set_destination b a) = Ipv4Packet.protocol b ∧
      Ipv4Packet.header_checksum (MutIpv4Packet.set_destination b a) = Ipv4Packet.header_checksum b ∧
      Ipv4Packet.source (MutIpv4Packet.set_destination b a) = Ipv4Packet.source b) := by
  refine ⟨?_, ?_, ?_, ?_, ?_, ?_, ?_, ?_, ?_, ?_, ?_, ?_, ?_⟩
  · intro v hv
    have H := set_version_read b hl v
    have hs : Ipv4Packet.header_length (MutIpv4Packet.set_version b v) = Ipv4Packet.header_length b := by
      simp only [Ipv4Packet.header_length, H]
      norm_num
      have h := (nib_or (v % 16) (by omega) (read_u8 b 0 % 16) (by omega)).2.1
      rw [h, land_15]
    refine ⟨hs, ?_, ?_, ?_, ?_, ?_, ?_, ?_, ?_, ?_, ?_, ?_, ?_, ?_⟩ <;>
      simp only [Ipv4Packet.version, Ipv4Packet.header_length, Ipv4Packet.dscp,
        Ipv4Packet.ecn, Ipv4Packet.total_length, Ipv4Packet.identification,
        Ipv4Packet.flags, Ipv4Packet.dont_fragment, Ipv4Packet.more_fragments,
        Ipv4Packet.fragment_offset, Ipv4Packet.ttl, Ipv4Packet.protocol,
        Ipv4Packet.header_checksum, Ipv4Packet.source, Ipv4Packet.destination,
        Flags.from_bits_truncate, Flags.contains, read_u16_be, H] <;>
      norm_num
  · intro v hv
    have H := set_header_length_read b hb hl v
    have hs : Ipv4Packet.version (MutIpv4Packet.set_header_length b v) = Ipv4Packet.version b := by
      simp only [Ipv4Packet.version, H]
      norm_num
      have hx := read_u8_lt hb 0
      have h := (nib_or (read_u8 b 0 / 16) (by omega) (v % 16) (by omega)).1
      rw [h, shr4]
    refine ⟨hs, ?_, ?_, ?_, ?_, ?_, ?_, ?_, ?_, ?_, ?_, ?_, ?_, ?_⟩ <;>
      simp only [Ipv4Packet.version, Ipv4Packet.header_length, Ipv4Packet.dscp,
        Ipv4Packet.ecn, Ipv4Packet.total_length, Ipv4Packet.identification,
        Ipv4Packet.flags, Ipv4Packet.dont_fragment, Ipv4Packet.more_fragments,
        Ipv4Packet.fragment_offset, Ipv4Packet.ttl, Ipv4Packet.protocol,
        Ipv4Packet.header_checksum, Ipv4Packet.source, Ipv4Packet.destination,
        Flags.from_bits_truncate, Flags.contains, read_u16_be, H] <;>
      norm_num
  · intro v hv
    have H := set_dscp_read b hl v
    have hs : Ipv4Packet.ecn (MutIpv4Packet.set_dscp b v) = Ipv4Packet.ecn b := by
      simp only [Ipv4Packet.ecn, H]
      norm_num
      have h := (dscp_or (v % 64) (by omega) (read_u8 b 1 % 4) (by omega)).2.1
      rw [h, land_3]
    refine ⟨?_, ?_, hs, ?_, ?_, ?_, ?_, ?_, ?_, ?_, ?_, ?_, ?_, ?_⟩ <;>
      simp only [Ipv4Packet.version, Ipv4Packet.header_length, Ipv4Packet.dscp,
        Ipv4Packet.ecn, Ipv4Packet.total_length, Ipv4Packet.identification,
        Ipv4Packet.flags, Ipv4Packet.dont_fragment, Ipv4Packet.more_fragments,
        Ipv4Packet.fragment_offset, Ipv4Packet.ttl, Ipv4Packet.protocol,
        Ipv4Packet.header_checksum, Ipv4Packet.source, Ipv4Packet.destination,
        Flags.from_bits_truncate, Flags.contains, read_u16_be, H] <;>
      norm_num
  · intro v hv
    have H := set_ecn_read b hb hl v
    have hs : Ipv4Packet.dscp (MutIpv4Packet.set_ecn b v) = Ipv4Packet.dscp b := by
      simp only [Ipv4Packet.dscp, H]
      norm_num
      have hx := read_u8_lt hb 1
      have h := (dscp_or (read_u8 b 1 / 4) (by omega) (v % 4) (by omega)).1
      rw [h, shr2]
    refine ⟨?_, ?_, hs, ?_, ?_, ?_, ?_, ?_, ?_, ?_, ?_, ?_, ?_, ?_⟩ <;>
      simp only [Ipv4Packet.version, Ipv4Packet.header_length, Ipv4Packet.dscp,
        Ipv4Packet.ecn, Ipv4Packet.total_length, Ipv4Packet.identification,
        Ipv4Packet.flags, Ipv4Packet.dont_fragment, Ipv4Packet.more_fragments,
        Ipv4Packet.fragment_offset, Ipv4Packet.ttl, Ipv4Packet.protocol,
        Ipv4Packet.header_checksum, Ipv4Packet.source, Ipv4Packet.destination,
        Flags.from_bits_truncate, Flags.contains, read_u16_be, H] <;>
      norm_num
  · intro v hv
    have H := set_total_length_read b hl v
    refine ⟨?_, ?_, ?_, ?_, ?_, ?_, ?_, ?_, ?_, ?_, ?_, ?_, ?_, ?_⟩ <;>
      simp only [Ipv4Packet.version, Ipv4Packet.header_length, Ipv4Packet.dscp,
        Ipv4Packet.ecn, Ipv4Packet.total_length, Ipv4Packet.identification,
        Ipv4Packet.flags, Ipv4Packet.dont_fragment, Ipv4Packet.more_fragments,
        Ipv4Packet.fragment_offset, Ipv4Packet.ttl, Ipv4Packet.protocol,
        Ipv4Packet.header_checksum, Ipv4Packet.source, Ipv4Packet.destination,
        Flags.from_bits_truncate, Flags.contains, read_u16_be, H] <;>
      norm_num
  · intro v hv
    have H := set_identification_read b hl v
    refine ⟨?_, ?_, ?_, ?_, ?_, ?_, ?_, ?_, ?_, ?_, ?_, ?_, ?_, ?_⟩ <;>
      simp only [Ipv4Packet.version, Ipv4Packet.header_length, Ipv4Packet.dscp,
        Ipv4Packet.ecn, Ipv4Packet.total_length, Ipv4Packet.identification,
        Ipv4Packet.flags, Ipv4Packet.dont_fragment, Ipv4Packet.more_fragments,
        Ipv4Packet.fragment_offset, Ipv4Packet.ttl, Ipv4Packet.protocol,
        Ipv4Packet.header_checksum, Ipv4Packet.source, Ipv4Packet.destination,
        Flags.from_bits_truncate, Flags.contains, read_u16_be, H] <;>
      norm_num
  · intro f hf
    have H := set_flags_read b hl f
    have hs : Ipv4Packet.fragment_offset (MutIpv4Packet.set_flags b f) = Ipv4Packet.fragment_offset b := by
      have hx6 := read_u8_lt hb 6
      have hx7 := read_u8_lt hb 7
      have H6 := H 6
      have H7 := H 7
      norm_num at H6 H7
      have hc6 : read_u8 (MutIpv4Packet.set_flags b f) 6 < 256 := by
        rw [H6]
        exact (flags_or (f.bits % 8) (by omega) (read_u8 b 6 % 32) (by omega)).2.2
      have hc7 : read_u8 (MutIpv4Packet.set_flags b f) 7 < 256 := by
        rw [H7]
        exact hx7
      rw [frag_nf hc6 hc7, frag_nf hx6 hx7, H6, H7]
      have h := (flags_or (f.bits % 8) (by omega) (read_u8 b 6 % 32) (by omega)).2.1
      rw [h]
    refine ⟨?_, ?_, ?_, ?_, ?_, ?_, hs, ?_, ?_, ?_, ?_, ?_⟩ <;>
      simp only [Ipv4Packet.version, Ipv4Packet.header_length, Ipv4Packet.dscp,
        Ipv4Packet.ecn, Ipv4Packet.total_length, Ipv4Packet.identification,
        Ipv4Packet.flags, Ipv4Packet.dont_fragment, Ipv4Packet.more_fragments,
        Ipv4Packet.fragment_offset, Ipv4Packet.ttl, Ipv4Packet.protocol,
        Ipv4Packet.header_checksum, Ipv4Packet.source, Ipv4Packet.destination,
        Flags.from_bits_truncate, Flags.contains, read_u16_be, H] <;>
      norm_num
  · intro v hv
    have H := set_frag_read b hb hl v
    have hfl : Ipv4Packet.flags (MutIpv4Packet.set_fragment_offset b v) = Ipv4Packet.flags b := by
      have H6 := H 6
      norm_num at H6
      rw [flags_nf, flags_nf, H6]
      simp only [Flags.mk.injEq]
      omega
    have hdf : Ipv4Packet.dont_fragment (MutIpv4Packet.set_fragment_offset b v) = Ipv4Packet.dont_fragment b := by
      simp only [Ipv4Packet.dont_fragment, hfl]
    have hmf : Ipv4Packet.more_fragments (MutIpv4Packet.set_fragment_offset b v) = Ipv4Packet.more_fragments b := by
      simp only [Ipv4Packet.more_fragments, hfl]
    refine ⟨?_, ?_, ?_, ?_, ?_, ?_, hfl, hdf, hmf, ?_, ?_, ?_, ?_, ?_⟩ <;>
      simp only [Ipv4Packet.version, Ipv4Packet.header_length, Ipv4Packet.dscp,
        Ipv4Packet.ecn, Ipv4Packet.total_length, Ipv4Packet.identification,
        Ipv4Packet.flags, Ipv4Packet.dont_fragment, Ipv4Packet.more_fragments,
        Ipv4Packet.fragment_offset, Ipv4Packet.ttl, Ipv4Packet.protocol,
        Ipv4Packet.header_checksum, Ipv4Packet.source, Ipv4Packet.destination,
        Flags.from_bits_truncate, Flags.contains, read_u16_be, H] <;>
      norm_num
  · intro v hv
    have H := set_ttl_read b hl v
    refine ⟨?_, ?_, ?_, ?_, ?_, ?_, ?_, ?_, ?_, ?_, ?_, ?_, ?_, ?_⟩ <;>
      simp only [Ipv4Packet.version, Ipv4Packet.header_length, Ipv4Packet.dscp,
        Ipv4Packet.ecn, Ipv4Packet.total_length, Ipv4Packet.identification,
        Ipv4Packet.flags, Ipv4Packet.dont_fragment, Ipv4Packet.more_fragments,
        Ipv4Packet.fragment_offset, Ipv4Packet.ttl, Ipv4Packet.protocol,
        Ipv4Packet.header_checksum, Ipv4Packet.source, Ipv4Packet.destination,
        Flags.from_bits_truncate, Flags.contains, read_u16_be, H] <;>
      norm_num
  · intro p hp
    have H := set_protocol_read b hl p
    refine ⟨?_, ?_, ?_, ?_, ?_, ?_, ?_, ?_, ?_, ?_, ?_, ?_, ?_, ?_⟩ <;>
      simp only [Ipv4Packet.version, Ipv4Packet.header_length, Ipv4Packet.dscp,
        Ipv4Packet.ecn, Ipv4Packet.total_length, Ipv4Packet.identification,
        Ipv4Packet.flags, Ipv4Packet.dont_fragment, Ipv4Packet.more_fragments,
        Ipv4Packet.fragment_offset, Ipv4Packet.ttl, Ipv4Packet.protocol,
        Ipv4Packet.header_checksum, Ipv4Packet.source, Ipv4Packet.destination,
        Flags.from_bits_truncate, Flags.contains, read_u16_be, H] <;>
      norm_num
  · intro v hv
    have H := set_header_checksum_read b hl v
    refine ⟨?_, ?_, ?_, ?_, ?_, ?_, ?_, ?_, ?_, ?_, ?_, ?_, ?_, ?_⟩ <;>
      simp only [Ipv4Packet.version, Ipv4Packet.header_length, Ipv4Packet.dscp,
        Ipv4Packet.ecn, Ipv4Packet.total_length, Ipv4Packet.identification,
        Ipv4Packet.flags, Ipv4Packet.dont_fragment, Ipv4Packet.more_fragments,
        Ipv4Packet.fragment_offset, Ipv4Packet.ttl, Ipv4Packet.protocol,
        Ipv4Packet.header_checksum, Ipv4Packet.source, Ipv4Packet.destination,
        Flags.from_bits_truncate, Flags.contains, read_u16_be, H] <;>
      norm_num
  · intro a
    have H := set_source_read b hl a
    refine ⟨?_, ?_, ?_, ?_, ?_, ?_, ?_, ?_, ?_, ?_, ?_, ?_, ?_, ?_⟩ <;>
      simp only [Ipv4Packet.version, Ipv4Packet.header_length, Ipv4Packet.dscp,
        Ipv4Packet.ecn, Ipv4Packet.total_length, Ipv4Packet.identification,
        Ipv4Packet.flags, Ipv4Packet.dont_fragment, Ipv4Packet.more_fragments,
        Ipv4Packet.fragment_offset, Ipv4Packet.ttl, Ipv4Packet.protocol,
        Ipv4Packet.header_checksum, Ipv4Packet.source, Ipv4Packet.destination,
        Flags.from_bits_truncate, Flags.contains, read_u16_be, H] <;>
      norm_num
  · intro a
    have H := set_destination_read b hl a
    refine ⟨?_, ?_, ?_, ?_, ?_, ?_, ?_, ?_, ?_, ?_, ?_, ?_, ?_, ?_⟩ <;>
      simp only [Ipv4Packet.version, Ipv4Packet.header_length, Ipv4Packet.dscp,
        Ipv4Packet.ecn, Ipv4Packet.total_length, Ipv4Packet.identification,
        Ipv4Packet.flags, Ipv4Packet.dont_fragment, Ipv4Packet.more_fragments,
        Ipv4Packet.fragment_offset, Ipv4Packet.ttl, Ipv4Packet.protocol,
        Ipv4Packet.header_checksum, Ipv4Packet.source, Ipv4Packet.destination,
        Flags.from_bits_truncate, Flags.contains, read_u16_be, H] <;>
      norm_num

theorem claim_C2_witness :
    Bytes (List.replicate 20 170) ∧ 20 ≤ (List.replicate 20 170).length ∧
    Flags.all.bits < 8 ∧
    Ipv4Packet.fragment_offset (MutIpv4Packet.set_flags (List.replicate 20 170) Flags.all)
      = Ipv4Packet.fragment_offset (List.replicate 20 170) ∧
    Ipv4Packet.flags (MutIpv4Packet.set_fragment_offset (List.replicate 20 170) 5000)
      = Ipv4Packet.flags (List.replicate 20 170) ∧
    Ipv4Packet.ttl (MutIpv4Packet.set_version (List.replicate 20 170) 5)
      = Ipv4Packet.ttl (List.replicate 20 170) :=
  ⟨by decide, by decide, by decide,
   ((claim_C2_setter_frame (List.replicate 20 170) (by decide)
     (by decide)).2.2.2.2.2.2.1 Flags.all (by decide)).2.2.2.2.2.2.1,
   ((claim_C2_setter_frame (List.replicate 20 170) (by decide)
     (by decide)).2.2.2.2.2.2.2.1 5000 (by decide)).2.2.2.2.2.2.1,
   ((claim_C2_setter_frame (List.replicate 20 170) (by decide)
     (by decide)).1 5 (by decide)).2.2.2.2.2.2.2.2.2.1⟩

end Rips
